import Mathlib

/-!
# The directory browser of `lsh.c` (`lsh_team12`)

A shallow embedding of the browser added to the shell in `src/src/lsh.c`:
`GetFileType`, `GetCurrentDirectoryFiles` and the render / read key / act loop
of `lsh_team12`, followed by the properties of the specification that were
checked against it.

Conventions of the embedding.

* A C string is a `List Char`; a `char[20]` buffer is the list of its bytes.
  `NUL` is the terminator.
* `int` variables are `Int`; arithmetic that leaves the range of a 32-bit
  `int` is a fault, as are an array access outside the array, a read of a
  buffer that holds no terminator and the use of a null `DIR*`.
* The operating system is a parameter: a record `Sys W` of the system calls
  the browser makes, over an arbitrary type `W` of worlds.  `ToyFs` is one
  executable instance, used for the concrete runs.
* The macros `DIRECTORY`, `REG_FILE`, ... are used by `lsh.c` but defined
  nowhere in it; they are the fields of the parameter `FileTypes`.
-/

namespace Lsh

/-! ## Constants (lines 25-45) -/

/-- Size of the entry array, `#define FILE_MAX_COUNT 200`. -/
def FILE_MAX_COUNT : Nat := 200

/-- Size of a name buffer, `#define FILE_MAX_LENGTH 20`. -/
def FILE_MAX_LENGTH : Nat := 20

/-- Entries per row, `#define ONE_LINE_FILE_NUMBER 4`. -/
def ONE_LINE_FILE_NUMBER : Nat := 4

/-- Colour base, `#define RED 31`. -/
def RED : Int := 31

/-- Largest value of a 32-bit `int`. -/
def INT_MAX : Int := 2147483647

/-- Smallest value of a 32-bit `int`. -/
def INT_MIN : Int := -2147483648

/-- The string terminator. -/
def NUL : Char := Char.ofNat 0

/-- The file type macros that `GetFileType` and `lsh_team12` use; `lsh.c`
does not define them, so their values are a parameter. -/
structure FileTypes where
  BLOCK_SPECIAL_FILE : Int
  CHAR_SPECIAL_FILE : Int
  DIRECTORY : Int
  PIPE_FILE : Int
  LINK_FILE : Int
  REG_FILE : Int
  SOCKET_FILE : Int
deriving DecidableEq, Repr

/-! ## Faults -/

/-- The ways in which a run leaves the behaviour that C defines. -/
inductive Fault
  | outOfBounds
  | nullDir
  | unterminated
  | intOverflow
deriving DecidableEq, Repr

deriving instance DecidableEq for Except

/-! ## C strings -/

/-- The bytes of a buffer before its first terminator: the string a `char*`
denotes when the terminator is there. -/
def cstr (buf : List Char) : List Char :=
  buf.takeWhile (fun ch => ch ≠ NUL)

/-- The function `strlen`. -/
def strlen (s : List Char) : Nat :=
  (cstr s).length

/-- The string held by a buffer, read the way `chdir`, `rmdir`, `unlink`,
`printf("%s")` read it: up to the terminator, which has to be in the buffer. -/
def readString (buf : List Char) : Except Fault (List Char) :=
  if NUL ∈ buf then .ok (cstr buf) else .error .unterminated

/-- The first `n` bytes of the destination after `strncpy(dst, src, n)`: the
bytes of `src` up to its terminator, at most `n` of them, then terminators up
to `n`. -/
def strncpy (src : List Char) (n : Nat) : List Char :=
  (cstr src).take n ++ List.replicate (n - ((cstr src).take n).length) NUL

/-- Lines 98-104 of `GetCurrentDirectoryFiles`: the `szName` buffer written
for a directory entry.  `strncpy` of the name, then a blank at every index
from `strlen(d_name)` to 19, then a terminator at index 19. -/
def paddedName (d_name : List Char) : List Char :=
  let copied := strncpy d_name FILE_MAX_LENGTH
  let blanked := copied.take (strlen d_name)
    ++ List.replicate (FILE_MAX_LENGTH - strlen d_name) ' '
  blanked.set (FILE_MAX_LENGTH - 1) NUL

/-- Lines 397-404 of `lsh_team12`: the first blank of the buffer becomes a
terminator and the scan stops. -/
def cutAtSpace : List Char → List Char
  | [] => []
  | ch :: rest => if ch = ' ' then NUL :: rest else ch :: cutAtSpace rest

/-- Lines 396-404 of `lsh_team12`: the buffer `szRealName` derived from the
`szName` of the entry under the cursor. -/
def realNameBuffer (szName : List Char) : List Char :=
  cutAtSpace (strncpy szName FILE_MAX_LENGTH)

/-! ## Entries and file modes -/

/-- The record `struct FileEntry`. -/
structure FileEntry where
  nNumber : Int
  szName : List Char
  nFileType : Int
deriving DecidableEq, Repr

/-- What the `S_IS*` tests of `GetFileType` see in `st_mode` after `lstat`;
`other` is a mode that passes none of the seven tests. -/
inductive FileMode
  | blk | chr | dir | fifo | lnk | reg | sock | other
deriving DecidableEq, Repr

/-! ## The operating system -/

/-- The system calls made by the browser, over worlds `W`.  The browser
ignores every return code, so the calls that act on the file system are
functions from world to world. -/
structure Sys (W : Type) where
  /-- The names that the successive `readdir` calls yield after
  `opendir("./")`; `none` when `opendir` returns `NULL`. -/
  opendir : W → Option (List (List Char))
  /-- What the tests of `GetFileType` see after `lstat(name, ...)`. -/
  lstat : W → List Char → FileMode
  chdir : W → List Char → W
  rmdir : W → List Char → W
  unlink : W → List Char → W
  /-- The call `mkdir(name, 0755)`. -/
  mkdir : W → List Char → W
  getcwd : W → List Char
  /-- The text `ctime(&t)` of the current time. -/
  ctime : W → List Char
  /-- The launcher `ExecuteProgram`, called by `lsh_team12` and defined
  nowhere in `lsh.c`. -/
  ExecuteProgram : W → List Char → W

/-! ## `GetFileType` and `GetCurrentDirectoryFiles` (lines 70-114) -/

/-- The function `GetFileType` (lines 70-82) for the name `szFileName`, where
`old` is the value `*nFileType` holds before the call: `lstat` is called on
the name, the seven tests are tried in order, and when none passes nothing is
stored and the old value stays. -/
def GetFileType {W : Type} (sys : Sys W) (c : FileTypes) (w : W)
    (szFileName : List Char) (old : Int) : Int :=
  match sys.lstat w szFileName with
  | .blk => c.BLOCK_SPECIAL_FILE
  | .chr => c.CHAR_SPECIAL_FILE
  | .dir => c.DIRECTORY
  | .fifo => c.PIPE_FILE
  | .lnk => c.LINK_FILE
  | .reg => c.REG_FILE
  | .sock => c.SOCKET_FILE
  | .other => old


/-- One pass through the body of the `while` loop (lines 94-110) for the
name `d_name`, with `*pFileEntryCount = n`: the element `arrFileEntry[n]` is
written, which is a fault when `n` is not an index of the array. -/
def storeEntry {W : Type} (sys : Sys W) (c : FileTypes) (w : W)
    (arr : List FileEntry) (n : Nat) (d_name : List Char) :
    Except Fault (List FileEntry) :=
  match arr.get? n with
  | none => .error .outOfBounds
  | some old =>
    .ok (arr.set n
      { nNumber := (n : Int)
        szName := paddedName d_name
        nFileType := GetFileType sys c w d_name old.nFileType })

/-- The `while` loop of lines 92-111 over the names still to be read, from
the count `n` and the array `arr`. -/
def readdirLoop {W : Type} (sys : Sys W) (c : FileTypes) (w : W) :
    List (List Char) → Nat → List FileEntry → Except Fault (Nat × List FileEntry)
  | [], n, arr => .ok (n, arr)
  | d_name :: rest, n, arr =>
    match storeEntry sys c w arr n d_name with
    | .error f => .error f
    | .ok arr1 => readdirLoop sys c w rest (n + 1) arr1

/-- The function `GetCurrentDirectoryFiles`: the count is set to 0, the
directory is opened, and every name read is stored.  There is no test of the
handle: with a null handle the first `readdir` is a fault. -/
def GetCurrentDirectoryFiles {W : Type} (sys : Sys W) (c : FileTypes) (w : W)
    (arr : List FileEntry) : Except Fault (Int × List FileEntry) :=
  match sys.opendir w with
  | none => .error .nullDir
  | some names =>
    match readdirLoop sys c w names 0 arr with
    | .error f => .error f
    | .ok (n, arr1) => .ok ((n : Int), arr1)

/-! ## The browser `lsh_team12` (lines 359-476) -/

/-- The variables of `lsh_team12` that live across iterations, and the
world. `arrFileEntry` is the 200-element array. -/
structure Browser (W : Type) where
  world : W
  nCursorIndex : Int
  nFileEntryCount : Int
  arrFileEntry : List FileEntry
deriving DecidableEq, Repr

/-- The state at the top of the first iteration (lines 361-366): cursor and
count are 0 and the array, which is not initialised, holds whatever `garbage`
was in its memory.  `GetCurrentDirectoryFiles` is not called here. -/
def initialBrowser {W : Type} (w : W) (garbage : List FileEntry) : Browser W :=
  { world := w, nCursorIndex := 0, nFileEntryCount := 0, arrFileEntry := garbage }

/-- The expression `arrFileEntry[i]` read with an `int` index. -/
def readEntry (arr : List FileEntry) (i : Int) : Except Fault FileEntry :=
  if i < 0 then .error .outOfBounds
  else
    match arr.get? i.toNat with
    | none => .error .outOfBounds
    | some e => .ok e

/-- What one iteration writes to the terminal. -/
inductive Out
  /-- The call `system("clear")`. -/
  | clear
  /-- The status bar of lines 378-380: path, file count, time. -/
  | status (path : List Char) (count : Int) (time : List Char)
  /-- A line break. -/
  | newline
  /-- One cell of line 390: foreground colour, whether the background is the
  cursor's, and the text. -/
  | cell (colour : Int) (atCursor : Bool) (text : List Char)
deriving DecidableEq, Repr

/-- The terminal output of an iteration so far, and the indices `i` of the
elements `arrFileEntry[i]` it has read so far, in order. -/
structure Trace where
  out : List Out
  reads : List Int
deriving DecidableEq, Repr

/-- The `for` loop of lines 383-391 over the indices still to be shown. -/
def fileDisplay (arr : List FileEntry) (nCursorIndex : Int) :
    List Nat → Trace → Trace × Except Fault Unit
  | [], t => (t, .ok ())
  | i :: rest, t =>
    let t1 : Trace :=
      if i % ONE_LINE_FILE_NUMBER = 0 then { t with out := t.out ++ [Out.newline] } else t
    let t2 : Trace := { t1 with reads := t1.reads ++ [(i : Int)] }
    match readEntry arr (i : Int) with
    | .error f => (t2, .error f)
    | .ok e =>
      match readString e.szName with
      | .error f => (t2, .error f)
      | .ok text =>
        fileDisplay arr nCursorIndex rest
          { t2 with out := t2.out ++
              [Out.cell (RED + e.nFileType) (decide (nCursorIndex = (i : Int))) text] }

/-- Lines 371-404, everything an iteration does before it reads the key: the
screen is cleared, the status bar and the entries are printed, and the real
name is derived from `arrFileEntry[nCursorIndex]`.  The result is the trace
of the phase and the buffer `szRealName`, or the fault that stopped it. -/
def renderPhase {W : Type} (sys : Sys W) (s : Browser W) :
    Trace × Except Fault (List Char) :=
  let t0 : Trace :=
    { out := [Out.clear,
              Out.status (sys.getcwd s.world) s.nFileEntryCount (sys.ctime s.world)]
      reads := [] }
  match fileDisplay s.arrFileEntry s.nCursorIndex (List.range s.nFileEntryCount.toNat) t0 with
  | (t1, .error f) => (t1, .error f)
  | (t1, .ok ()) =>
    let t2 : Trace := { out := t1.out ++ [Out.newline], reads := t1.reads ++ [s.nCursorIndex] }
    match readEntry s.arrFileEntry s.nCursorIndex with
    | .error f => (t2, .error f)
    | .ok e => (t2, .ok (realNameBuffer e.szName))

/-- The statement `nCursorIndex += d` on an `int`. -/
def addInt (i d : Int) : Except Fault Int :=
  if INT_MIN ≤ i + d ∧ i + d ≤ INT_MAX then .ok (i + d) else .error .intOverflow

/-- The name given to `mkdir` at line 465. -/
def newDirectoryName : List Char := "new_directory".toList

/-- Lines 406-470: what the iteration does with the key `cInput`, given the
buffer `szRealName` of the render phase.  The result is the browser at the
top of the next iteration, or `none` after `break`. -/
def dispatch {W : Type} (sys : Sys W) (c : FileTypes) (s : Browser W)
    (szRealName : List Char) (cInput : Char) : Except Fault (Option (Browser W)) :=
  if cInput = 'd' then
    match addInt s.nCursorIndex 1 with
    | .error f => .error f
    | .ok i => .ok (some { s with nCursorIndex := i })
  else if cInput = 'a' then
    match addInt s.nCursorIndex (-1) with
    | .error f => .error f
    | .ok i => .ok (some { s with nCursorIndex := i })
  else if cInput = 'w' then
    match addInt s.nCursorIndex (-(ONE_LINE_FILE_NUMBER : Int)) with
    | .error f => .error f
    | .ok i => .ok (some { s with nCursorIndex := i })
  else if cInput = 's' then
    match addInt s.nCursorIndex (ONE_LINE_FILE_NUMBER : Int) with
    | .error f => .error f
    | .ok i => .ok (some { s with nCursorIndex := i })
  else if cInput = 'e' then
    match readEntry s.arrFileEntry s.nCursorIndex with
    | .error f => .error f
    | .ok e =>
      if e.nFileType = c.DIRECTORY then
        match readString szRealName with
        | .error f => .error f
        | .ok path =>
          match GetCurrentDirectoryFiles sys c (sys.chdir s.world path) s.arrFileEntry with
          | .error f => .error f
          | .ok (n, arr) =>
            .ok (some { world := sys.chdir s.world path, nCursorIndex := 0,
                        nFileEntryCount := n, arrFileEntry := arr })
      else
        match readString e.szName with
        | .error f => .error f
        | .ok prog => .ok (some { s with world := sys.ExecuteProgram s.world prog })
  else if cInput = 'q' then
    .ok none
  else if cInput = 'z' then
    match readEntry s.arrFileEntry s.nCursorIndex with
    | .error f => .error f
    | .ok e =>
      match readString szRealName with
      | .error f => .error f
      | .ok path =>
        let w1 := if e.nFileType = c.DIRECTORY then sys.rmdir s.world path
                  else sys.unlink s.world path
        match GetCurrentDirectoryFiles sys c w1 s.arrFileEntry with
        | .error f => .error f
        | .ok (n, arr) =>
          .ok (some { world := w1, nCursorIndex := 0, nFileEntryCount := n, arrFileEntry := arr })
  else if cInput = 'n' then
    match GetCurrentDirectoryFiles sys c (sys.mkdir s.world newDirectoryName) s.arrFileEntry with
    | .error f => .error f
    | .ok (n, arr) =>
      .ok (some { world := sys.mkdir s.world newDirectoryName, nCursorIndex := 0,
                  nFileEntryCount := n, arrFileEntry := arr })
  else
    .ok (some s)

/-- One pass through the body of `while(TRUE)` (lines 371-470) with the key
`cInput` returned by `getch`. -/
def iteration {W : Type} (sys : Sys W) (c : FileTypes) (s : Browser W) (cInput : Char) :
    Except Fault (Option (Browser W)) :=
  match (renderPhase sys s).2 with
  | .error f => .error f
  | .ok szRealName => dispatch sys c s szRealName cInput

/-- The loop of `lsh_team12` fed with the keys `keys`: the browser at the
top of the iteration that would read the next key, or the browser at the
`break`. -/
def session {W : Type} (sys : Sys W) (c : FileTypes) :
    Browser W → List Char → Except Fault (Browser W)
  | s, [] => .ok s
  | s, k :: ks =>
    match iteration sys c s k with
    | .error f => .error f
    | .ok none => .ok s
    | .ok (some s1) => session sys c s1 ks

/-- The function `lsh_team12` (lines 359-476) run in the world `w` on the
keys `keys`, where `garbage` is the content of the uninitialised array: the
variables at the `break`, or at the iteration that finds no key left. -/
def lsh_team12 {W : Type} (sys : Sys W) (c : FileTypes) (w : W)
    (garbage : List FileEntry) (keys : List Char) : Except Fault (Browser W) :=
  session sys c (initialBrowser w garbage) keys

/-- The effect of a move key on the cursor: `d`, `a`, `w`, `s`. -/
def moveDelta (cInput : Char) : Option Int :=
  if cInput = 'd' then some 1
  else if cInput = 'a' then some (-1)
  else if cInput = 'w' then some (-(ONE_LINE_FILE_NUMBER : Int))
  else if cInput = 's' then some (ONE_LINE_FILE_NUMBER : Int)
  else none

/-- Whether the cursor of `s` is an index of the snapshot. -/
def cursorInRange {W : Type} (s : Browser W) : Prop :=
  0 ≤ s.nCursorIndex ∧ s.nCursorIndex < s.nFileEntryCount

/-- Whether, along the run of the loop from `s` on the keys `keys`, every
move key that is pressed while the snapshot has entries has its target
inside `[0, nFileEntryCount)`. -/
def movesInRange {W : Type} (sys : Sys W) (c : FileTypes) :
    Browser W → List Char → Bool
  | _, [] => true
  | s, k :: ks =>
    (match moveDelta k with
     | some d =>
       decide (0 < s.nFileEntryCount →
         0 ≤ s.nCursorIndex + d ∧ s.nCursorIndex + d < s.nFileEntryCount)
     | none => true)
    && (match iteration sys c s k with
        | .ok (some s1) => movesInRange sys c s1 ks
        | _ => true)

/-! ## An executable world

A small file system for the concrete runs: a table of absolute paths (lists
of components, the root is `[]`) with their modes, the current directory,
and the directories that lack read permission. -/

/-- A small file system. -/
structure ToyFs where
  cwd : List (List Char)
  nodes : List (List (List Char) × FileMode)
  unreadable : List (List (List Char))
deriving DecidableEq, Repr

namespace ToyFs

/-- The mode stored for a path. -/
def lookup (w : ToyFs) (path : List (List Char)) : Option FileMode :=
  (w.nodes.find? (fun n => decide (n.1 = path))).map (fun n => n.2)

/-- Whether a path is a directory: the root, or a node of mode `dir`. -/
def isDir (w : ToyFs) (path : List (List Char)) : Bool :=
  decide (path = []) || decide (w.lookup path = some FileMode.dir)

/-- The names directly inside a directory, in table order. -/
def children (w : ToyFs) (path : List (List Char)) : List (List Char) :=
  (w.nodes.filter (fun n => decide (n.1 ≠ []) && decide (n.1.dropLast = path))).map
    (fun n => n.1.getLast?.getD [])

/-- The table without the node at a path. -/
def remove (w : ToyFs) (path : List (List Char)) : ToyFs :=
  { w with nodes := w.nodes.filter (fun n => decide (n.1 ≠ path)) }

/-- The name `.`. -/
def dot : List Char := ".".toList

/-- The name `..`. -/
def dotdot : List Char := "..".toList

/-- Listing of the current directory: the children, then `.` and `..`
(`readdir` promises no order); nothing when the directory is gone or may not
be read. -/
def opendir (w : ToyFs) : Option (List (List Char)) :=
  if w.isDir w.cwd && decide (w.cwd ∉ w.unreadable) then
    some (w.children w.cwd ++ [dot, dotdot])
  else none

/-- Mode of a name of the current directory, without following links; a
name that does not exist passes none of the tests. -/
def lstat (w : ToyFs) (name : List Char) : FileMode :=
  if name = dot ∨ name = dotdot then FileMode.dir
  else (w.lookup (w.cwd ++ [name])).getD FileMode.other

/-- Change of directory; the world is unchanged when the call fails. -/
def chdir (w : ToyFs) (name : List Char) : ToyFs :=
  if name = dot then w
  else if name = dotdot then { w with cwd := w.cwd.dropLast }
  else if w.isDir (w.cwd ++ [name]) && decide (name ≠ []) then { w with cwd := w.cwd ++ [name] }
  else w

/-- Removal of an empty directory; the world is unchanged when the name is
not a directory or the directory is not empty. -/
def rmdir (w : ToyFs) (name : List Char) : ToyFs :=
  if name = dot ∨ name = dotdot then w
  else if decide (w.lookup (w.cwd ++ [name]) = some FileMode.dir)
      && decide (w.children (w.cwd ++ [name]) = []) then
    w.remove (w.cwd ++ [name])
  else w

/-- Removal of a name that is not a directory. -/
def unlink (w : ToyFs) (name : List Char) : ToyFs :=
  match w.lookup (w.cwd ++ [name]) with
  | none => w
  | some FileMode.dir => w
  | some _ => w.remove (w.cwd ++ [name])

/-- Creation of a directory; the world is unchanged when the name exists. -/
def mkdir (w : ToyFs) (name : List Char) : ToyFs :=
  if name = [] ∨ name = dot ∨ name = dotdot then w
  else
    match w.lookup (w.cwd ++ [name]) with
    | some _ => w
    | none => { w with nodes := w.nodes ++ [(w.cwd ++ [name], FileMode.dir)] }

/-- The absolute path of the current directory. -/
def getcwd (w : ToyFs) : List Char :=
  if w.cwd = [] then ['/'] else (w.cwd.map (fun comp => '/' :: comp)).flatten

/-- The system calls over `ToyFs`.  The clock is fixed and the launched
program leaves the file system as it is. -/
def sys : Sys ToyFs :=
  { opendir := opendir
    lstat := lstat
    chdir := chdir
    rmdir := rmdir
    unlink := unlink
    mkdir := mkdir
    getcwd := getcwd
    ctime := fun _ => "Sun Dec  8 12:00:00 2019".toList
    ExecuteProgram := fun w _ => w }

end ToyFs

/-- Sample values for the file type macros, numbered in the order of the
tests of `GetFileType`. -/
def sampleTypes : FileTypes :=
  { BLOCK_SPECIAL_FILE := 0
    CHAR_SPECIAL_FILE := 1
    DIRECTORY := 2
    PIPE_FILE := 3
    LINK_FILE := 4
    REG_FILE := 5
    SOCKET_FILE := 6 }

/-- An entry whose bytes are all zero. -/
def zeroEntry : FileEntry :=
  { nNumber := 0, szName := List.replicate FILE_MAX_LENGTH NUL, nFileType := 0 }

/-- An entry array of 200 zeroed elements, one possible content of the
uninitialised array. -/
def zeroArray : List FileEntry :=
  List.replicate FILE_MAX_COUNT zeroEntry

/-- The name of the `i`-th file of `crowdedFs`: `f0`, `f1`, ... -/
def numberedName (i : Nat) : List Char :=
  'f' :: Nat.toDigits 10 i

/-- A directory `/home` that holds the 199 regular files `f0` ... `f198`, so
that its listing, with `.` and `..`, has 201 names. -/
def crowdedFs : ToyFs :=
  { cwd := ["home".toList]
    nodes := (["home".toList], FileMode.dir) ::
      (List.range 199).map (fun i => (["home".toList, numberedName i], FileMode.reg))
    unreadable := [] }

/-- The directory `/home` with the regular file `a.txt` and the directory
`sub`, where `sub` may be entered but not read (mode `0311`). -/
def lockedFs : ToyFs :=
  { cwd := ["home".toList]
    nodes := [(["home".toList], FileMode.dir),
              (["home".toList, "a.txt".toList], FileMode.reg),
              (["home".toList, "sub".toList], FileMode.dir)]
    unreadable := [["home".toList, "sub".toList]] }

/-- A directory `/home` that holds the regular file `a.txt` and the
directory `sub`, which holds the file `f`; the current directory is `/home`. -/
def homeFs : ToyFs :=
  { cwd := ["home".toList]
    nodes := [(["home".toList], FileMode.dir),
              (["home".toList, "a.txt".toList], FileMode.reg),
              (["home".toList, "sub".toList], FileMode.dir),
              (["home".toList, "sub".toList, "f".toList], FileMode.reg)]
    unreadable := [] }

/-- The directory `/home` with the regular files `a b` and `a`. -/
def spaceFs : ToyFs :=
  { cwd := ["home".toList]
    nodes := [(["home".toList], FileMode.dir),
              (["home".toList, "a b".toList], FileMode.reg),
              (["home".toList, "a".toList], FileMode.reg)]
    unreadable := [] }

/-- The entry array after `GetCurrentDirectoryFiles` has run in `homeFs` on
the zeroed array: four entries, then zeroes. -/
def homeSnapshot : List FileEntry :=
  [ { nNumber := 0, szName := paddedName "a.txt".toList, nFileType := 5 },
    { nNumber := 1, szName := paddedName "sub".toList, nFileType := 2 },
    { nNumber := 2, szName := paddedName ".".toList, nFileType := 2 },
    { nNumber := 3, szName := paddedName "..".toList, nFileType := 2 } ]
  ++ List.replicate 196 zeroEntry

/-- A browser in `homeFs` whose snapshot is loaded, with the cursor at `i`. -/
def loadedBrowser (i : Int) : Browser ToyFs :=
  { world := homeFs, nCursorIndex := i, nFileEntryCount := 4, arrFileEntry := homeSnapshot }

/-- The file system of `homeFs` after a file `x` has appeared in `/home`. -/
def grownFs : ToyFs :=
  { homeFs with nodes := homeFs.nodes ++ [(["home".toList, "x".toList], FileMode.reg)] }

/-- A browser whose snapshot was taken in `homeFs`, with the cursor on the
directory `sub`, which is not empty; since the snapshot, another process has
created `x` in the directory. -/
def staleBrowser : Browser ToyFs :=
  { world := grownFs, nCursorIndex := 1, nFileEntryCount := 4, arrFileEntry := homeSnapshot }

/-- The count and array that `GetCurrentDirectoryFiles` leaves in the world
`w` on the array `arr`, for the concrete runs (count 0 and `arr` on a fault). -/
def rebuilt (w : ToyFs) (arr : List FileEntry) : Int × List FileEntry :=
  match GetCurrentDirectoryFiles ToyFs.sys sampleTypes w arr with
  | .ok r => r
  | .error _ => (0, arr)

/-! # Properties -/

set_option maxRecDepth 100000

/-! ## Strings -/

theorem cstr_nil : cstr [] = [] := rfl

theorem cstr_cons (a : Char) (s : List Char) :
    cstr (a :: s) = if a = NUL then [] else a :: cstr s := by
  by_cases h : a = NUL <;> simp [cstr, List.takeWhile, h]

theorem cstr_append_NUL (s t : List Char) (hs : NUL ∉ s) : cstr (s ++ NUL :: t) = s := by
  induction s with
  | nil => simp [cstr_cons]
  | cons a s ih =>
    have ha : a ≠ NUL := fun h => hs (by simp [h])
    have hs1 : NUL ∉ s := fun h => hs (by simp [h])
    simp [cstr_cons, ha, ih hs1]

theorem cstr_of_no_NUL (s : List Char) (hs : NUL ∉ s) : cstr s = s := by
  induction s with
  | nil => rfl
  | cons a s ih =>
    have ha : a ≠ NUL := fun h => hs (by simp [h])
    have hs1 : NUL ∉ s := fun h => hs (by simp [h])
    simp [cstr_cons, ha, ih hs1]

theorem set_length_append (l : List Char) (a b : Char) (r : List Char) :
    (l ++ a :: r).set l.length b = l ++ b :: r := by
  induction l with
  | nil => simp
  | cons x l ih => simp [ih]

theorem cutAtSpace_append (s t : List Char) (hs : ' ' ∉ s) :
    cutAtSpace (s ++ t) = s ++ cutAtSpace t := by
  induction s with
  | nil => simp
  | cons a s ih =>
    have ha : a ≠ ' ' := fun h => hs (by simp [h])
    have hs1 : ' ' ∉ s := fun h => hs (by simp [h])
    simp [cutAtSpace, ha, ih hs1]

theorem cutAtSpace_blanks (k : Nat) :
    ∃ t, cutAtSpace (List.replicate k ' ' ++ [NUL]) = NUL :: t := by
  cases k with
  | zero => exact ⟨[], by decide⟩
  | succ k => exact ⟨List.replicate k ' ' ++ [NUL], by simp [List.replicate_succ, cutAtSpace]⟩

theorem paddedName_short (name : List Char) (hnul : NUL ∉ name)
    (hlen : name.length < FILE_MAX_LENGTH) :
    paddedName name = name ++ (List.replicate (FILE_MAX_LENGTH - 1 - name.length) ' ' ++ [NUL]) := by
  have hc : cstr name = name := cstr_of_no_NUL name hnul
  unfold FILE_MAX_LENGTH at hlen
  have h1 : List.replicate (20 - name.length) ' '
      = List.replicate (19 - name.length) ' ' ++ [' '] := by
    have : 20 - name.length = (19 - name.length) + 1 := by omega
    rw [this, List.replicate_succ']
  have h2 : (name ++ List.replicate (19 - name.length) ' ').length = 19 := by
    simp; omega
  simp only [paddedName, strncpy, strlen, hc, FILE_MAX_LENGTH]
  rw [List.take_of_length_le (by omega : name.length ≤ 20), List.take_left, h1,
    ← List.append_assoc]
  have := set_length_append (name ++ List.replicate (19 - name.length) ' ') ' ' NUL []
  rw [h2] at this
  simpa using this

theorem blank_ne_NUL : (' ' : Char) ≠ NUL := by decide

theorem realName_of_padded (name : List Char) (hnul : NUL ∉ name) (hsp : ' ' ∉ name)
    (hlen : name.length < FILE_MAX_LENGTH) :
    readString (realNameBuffer (paddedName name)) = .ok name := by
  have hp := paddedName_short name hnul hlen
  unfold FILE_MAX_LENGTH at hlen hp
  have hblank : NUL ∉ name ++ List.replicate (19 - name.length) ' ' := by
    simp only [List.mem_append, List.mem_replicate, not_or]
    exact ⟨hnul, fun h => blank_ne_NUL h.2.symm⟩
  have hc : cstr (paddedName name) = name ++ List.replicate (19 - name.length) ' ' := by
    rw [hp, ← List.append_assoc]
    exact cstr_append_NUL _ [] hblank
  have hlen2 : (name ++ List.replicate (19 - name.length) ' ').length = 19 := by
    simp; omega
  have hcopy : strncpy (paddedName name) 20
      = name ++ (List.replicate (19 - name.length) ' ' ++ [NUL]) := by
    simp only [strncpy, hc]
    rw [List.take_of_length_le (by omega), hlen2]
    simp
  obtain ⟨t, ht⟩ := cutAtSpace_blanks (19 - name.length)
  have hreal : realNameBuffer (paddedName name) = name ++ NUL :: t := by
    simp only [realNameBuffer, FILE_MAX_LENGTH, hcopy]
    rw [cutAtSpace_append _ _ hsp, ht]
  rw [hreal]
  simp [readString, cstr_append_NUL name t hnul]


/-! ## `GetCurrentDirectoryFiles` -/

theorem storeEntry_ok {W : Type} (sys : Sys W) (c : FileTypes) (w : W)
    (arr : List FileEntry) (n : Nat) (d_name : List Char) (hn : n < arr.length) :
    ∃ old, arr.get? n = some old ∧
      storeEntry sys c w arr n d_name = .ok (arr.set n
        { nNumber := (n : Int)
          szName := paddedName d_name
          nFileType := GetFileType sys c w d_name old.nFileType }) := by
  refine ⟨arr.get ⟨n, hn⟩, List.get?_eq_get hn, ?_⟩
  simp [storeEntry, List.getElem?_eq_getElem hn]

theorem storeEntry_overflow {W : Type} (sys : Sys W) (c : FileTypes) (w : W)
    (arr : List FileEntry) (n : Nat) (d_name : List Char) (hn : arr.length ≤ n) :
    storeEntry sys c w arr n d_name = .error .outOfBounds := by
  simp [storeEntry, List.getElem?_eq_none hn]

theorem readdirLoop_ok {W : Type} (sys : Sys W) (c : FileTypes) (w : W) :
    ∀ (names : List (List Char)) (n : Nat) (arr : List FileEntry),
      n + names.length ≤ arr.length →
      ∃ arr1, readdirLoop sys c w names n arr = .ok (n + names.length, arr1) ∧
        arr1.length = arr.length ∧
        (∀ j, j < n → arr1.get? j = arr.get? j) ∧
        (∀ j, n + names.length ≤ j → arr1.get? j = arr.get? j) ∧
        (∀ k d_name, names.get? k = some d_name →
          ∃ old, arr.get? (n + k) = some old ∧
            arr1.get? (n + k) = some
              { nNumber := ((n + k : Nat) : Int)
                szName := paddedName d_name
                nFileType := GetFileType sys c w d_name old.nFileType }) := by
  intro names
  induction names with
  | nil =>
    intro n arr _
    exact ⟨arr, by simp [readdirLoop], rfl, fun _ _ => rfl, fun _ _ => rfl,
      fun k d h => by simp at h⟩
  | cons d rest ih =>
    intro n arr hlen
    simp only [List.length_cons] at hlen
    have hn : n < arr.length := by omega
    obtain ⟨old, hold, hstore⟩ := storeEntry_ok sys c w arr n d hn
    obtain ⟨arr1, hloop, hlen1, hlow, hhigh, hmid⟩ :=
      ih (n + 1) (arr.set n
        { nNumber := (n : Int)
          szName := paddedName d
          nFileType := GetFileType sys c w d old.nFileType })
        (by simp; omega)
    refine ⟨arr1, ?_, ?_, ?_, ?_, ?_⟩
    · simp only [readdirLoop, hstore, hloop, List.length_cons]
      congr 2; omega
    · simpa using hlen1
    · intro j hj
      rw [hlow j (by omega)]
      simp only [List.get?_eq_getElem?]
      rw [List.getElem?_set_ne (by omega)]
    · intro j hj
      simp only [List.length_cons] at hj
      rw [hhigh j (by omega)]
      simp only [List.get?_eq_getElem?]
      rw [List.getElem?_set_ne (by omega)]
    · intro k d_name hk
      cases k with
      | zero =>
        simp only [List.get?_cons_zero, Option.some.injEq] at hk
        subst hk
        refine ⟨old, by simpa using hold, ?_⟩
        rw [Nat.add_zero, hlow n (by omega)]
        simp only [List.get?_eq_getElem?]
        rw [List.getElem?_set_self hn]
      | succ k =>
        simp only [List.get?_cons_succ] at hk
        obtain ⟨old1, hold1, hnew1⟩ := hmid k d_name hk
        have hidx : n + 1 + k = n + (k + 1) := by omega
        rw [hidx] at hold1 hnew1
        refine ⟨old1, ?_, hnew1⟩
        rw [← hold1]
        simp only [List.get?_eq_getElem?]
        rw [List.getElem?_set_ne (by omega)]

theorem readdirLoop_overflow {W : Type} (sys : Sys W) (c : FileTypes) (w : W) :
    ∀ (names : List (List Char)) (n : Nat) (arr : List FileEntry),
      n ≤ arr.length → arr.length < n + names.length →
      readdirLoop sys c w names n arr = .error .outOfBounds := by
  intro names
  induction names with
  | nil => intro n arr h1 h2; simp at h2; omega
  | cons d rest ih =>
    intro n arr h1 h2
    simp only [List.length_cons] at h2
    by_cases hn : n < arr.length
    · obtain ⟨old, _, hstore⟩ := storeEntry_ok sys c w arr n d hn
      simp only [readdirLoop, hstore]
      exact ih (n + 1) _ (by simp; omega) (by simp; omega)
    · simp only [readdirLoop, storeEntry_overflow sys c w arr n d (by omega)]


theorem zeroArray_length : zeroArray.length = FILE_MAX_COUNT := by
  simp [zeroArray]

theorem GetCurrentDirectoryFiles_of_null {W : Type} (sys : Sys W) (c : FileTypes) (w : W)
    (arr : List FileEntry) (hopen : sys.opendir w = none) :
    GetCurrentDirectoryFiles sys c w arr = .error .nullDir := by
  simp [GetCurrentDirectoryFiles, hopen]

theorem GetCurrentDirectoryFiles_of_overfull {W : Type} (sys : Sys W) (c : FileTypes) (w : W)
    (arr : List FileEntry) (names : List (List Char)) (hopen : sys.opendir w = some names)
    (hlen : arr.length < names.length) :
    GetCurrentDirectoryFiles sys c w arr = .error .outOfBounds := by
  simp only [GetCurrentDirectoryFiles, hopen]
  rw [readdirLoop_overflow sys c w names 0 arr (Nat.zero_le _) (by omega)]

/-- C5. When the directory opens and yields `n ≤ 200` names,
`GetCurrentDirectoryFiles` returns with the count `n`, and for every `k < n`
element `k` of the array has `nNumber = k`, the padded `k`-th name, and the
type that `GetFileType` derives for the `k`-th name. -/
theorem GetCurrentDirectoryFiles_dense {W : Type} (sys : Sys W) (c : FileTypes) (w : W)
    (arr : List FileEntry) (names : List (List Char))
    (hopen : sys.opendir w = some names)
    (harr : arr.length = FILE_MAX_COUNT)
    (hn : names.length ≤ FILE_MAX_COUNT) :
    ∃ arr1, GetCurrentDirectoryFiles sys c w arr = .ok ((names.length : Int), arr1) ∧
      arr1.length = FILE_MAX_COUNT ∧
      ∀ k d_name, names.get? k = some d_name →
        ∃ old, arr.get? k = some old ∧
          arr1.get? k = some
            { nNumber := (k : Int)
              szName := paddedName d_name
              nFileType := GetFileType sys c w d_name old.nFileType } := by
  obtain ⟨arr1, hloop, hlen1, _, _, hmid⟩ :=
    readdirLoop_ok sys c w names 0 arr (by omega)
  refine ⟨arr1, ?_, by omega, ?_⟩
  · simp [GetCurrentDirectoryFiles, hopen, hloop]
  · intro k d_name hk
    simpa using hmid k d_name hk

/-- Witness of C5 on the directory `/home` of `homeFs`, whose listing has
four names. -/
theorem GetCurrentDirectoryFiles_dense_witness :
    ∃ arr1, GetCurrentDirectoryFiles ToyFs.sys sampleTypes homeFs zeroArray
        = .ok ((["a.txt".toList, "sub".toList, ToyFs.dot, ToyFs.dotdot].length : Int), arr1) ∧
      arr1.length = FILE_MAX_COUNT ∧
      ∀ k d_name, ["a.txt".toList, "sub".toList, ToyFs.dot, ToyFs.dotdot].get? k = some d_name →
        ∃ old, zeroArray.get? k = some old ∧
          arr1.get? k = some
            { nNumber := (k : Int)
              szName := paddedName d_name
              nFileType := GetFileType ToyFs.sys sampleTypes homeFs d_name old.nFileType } :=
  GetCurrentDirectoryFiles_dense ToyFs.sys sampleTypes homeFs zeroArray
    ["a.txt".toList, "sub".toList, ToyFs.dot, ToyFs.dotdot] (by decide) zeroArray_length
    (by decide)

/-- C6. The directory of `crowdedFs` lists 201 names, the array has 200
elements, and `GetCurrentDirectoryFiles` does not stop at the cap: it runs
into the write of `arrFileEntry[200]`. -/
theorem GetCurrentDirectoryFiles_overflows_at_201 :
    (ToyFs.sys.opendir crowdedFs).map List.length = some 201 ∧
    zeroArray.length = FILE_MAX_COUNT ∧
    GetCurrentDirectoryFiles ToyFs.sys sampleTypes crowdedFs zeroArray = .error .outOfBounds := by
  have hopen : ToyFs.sys.opendir crowdedFs
      = some ((List.range 199).map numberedName ++ [ToyFs.dot, ToyFs.dotdot]) := by
    rfl
  refine ⟨?_, zeroArray_length, ?_⟩
  · rw [hopen]; simp
  · exact GetCurrentDirectoryFiles_of_overfull ToyFs.sys sampleTypes crowdedFs zeroArray _ hopen
      (by simp [zeroArray, FILE_MAX_COUNT])

/-- C7. In `lockedFs` the directory `sub` can be entered but not opened.
Called there, `GetCurrentDirectoryFiles` does not return: it passes the null
handle to `readdir`.  The browser gets there with the keys `n`, `d`, `e`. -/
theorem GetCurrentDirectoryFiles_null_handle :
    ToyFs.sys.opendir (ToyFs.sys.chdir lockedFs "sub".toList) = none ∧
    GetCurrentDirectoryFiles ToyFs.sys sampleTypes (ToyFs.sys.chdir lockedFs "sub".toList) zeroArray
      = .error .nullDir ∧
    lsh_team12 ToyFs.sys sampleTypes lockedFs zeroArray ['n', 'd', 'e']
      = .error .nullDir := by
  refine ⟨by decide, by decide, by decide⟩


/-! ## The move keys -/

theorem addInt_ok (i d : Int) (h : INT_MIN ≤ i + d ∧ i + d ≤ INT_MAX) :
    addInt i d = .ok (i + d) := by
  simp [addInt, h]

theorem addInt_eq_ok (i d j : Int) (h : addInt i d = .ok j) : j = i + d := by
  unfold addInt at h
  split at h
  · injection h with h; exact h.symm
  · cases h

theorem dispatch_move {W : Type} (sys : Sys W) (c : FileTypes) (s : Browser W)
    (szRealName : List Char) (key : Char) (d : Int) (hkey : moveDelta key = some d) :
    dispatch sys c s szRealName key =
      match addInt s.nCursorIndex d with
      | .error f => .error f
      | .ok i => .ok (some { s with nCursorIndex := i }) := by
  unfold moveDelta at hkey
  split_ifs at hkey with h1 h2 h3 h4 <;> subst_vars <;>
    simp only [Option.some.injEq] at hkey <;> subst hkey <;> simp [dispatch]

theorem GetCurrentDirectoryFiles_count_nonneg {W : Type} (sys : Sys W) (c : FileTypes)
    (w : W) (arr arr1 : List FileEntry) (n : Int)
    (h : GetCurrentDirectoryFiles sys c w arr = .ok (n, arr1)) : 0 ≤ n := by
  unfold GetCurrentDirectoryFiles at h
  split at h
  · cases h
  · split at h
    · cases h
    · injection h with h; injection h with h1 _
      rw [← h1]; exact Int.ofNat_nonneg _

theorem dispatch_other {W : Type} (sys : Sys W) (c : FileTypes) (s s1 : Browser W)
    (szRealName : List Char) (key : Char) (hkey : moveDelta key = none)
    (hstep : dispatch sys c s szRealName key = .ok (some s1)) :
    (s1.nCursorIndex = 0 ∧ 0 ≤ s1.nFileEntryCount) ∨
      (s1.nCursorIndex = s.nCursorIndex ∧ s1.nFileEntryCount = s.nFileEntryCount) := by
  unfold moveDelta at hkey
  split_ifs at hkey with h1 h2 h3 h4
  unfold dispatch at hstep
  simp only [h1, h2, h3, h4, if_false] at hstep
  split_ifs at hstep with he hq hz hn
  · split at hstep
    · cases hstep
    · split_ifs at hstep with hdir
      · split at hstep
        · cases hstep
        · split at hstep
          · cases hstep
          · rename_i hlist
            injection hstep with h; injection h with h; subst h
            exact Or.inl ⟨rfl, GetCurrentDirectoryFiles_count_nonneg _ _ _ _ _ _ hlist⟩
      · split at hstep
        · cases hstep
        · injection hstep with h; injection h with h; subst h; exact Or.inr ⟨rfl, rfl⟩
  · cases hstep
  · split at hstep
    · cases hstep
    · split at hstep
      · cases hstep
      · split at hstep
        · cases hstep
        · rename_i hlist
          injection hstep with h; injection h with h; subst h
          exact Or.inl ⟨rfl, GetCurrentDirectoryFiles_count_nonneg _ _ _ _ _ _ hlist⟩
  · split at hstep
    · cases hstep
    · rename_i hlist
      injection hstep with h; injection h with h; subst h
      exact Or.inl ⟨rfl, GetCurrentDirectoryFiles_count_nonneg _ _ _ _ _ _ hlist⟩
  · injection hstep with h; injection h with h; subst h; exact Or.inr ⟨rfl, rfl⟩

/-- One iteration from a state with no entries or with the cursor inside
the snapshot, to a state with entries: the cursor is inside the snapshot
afterwards exactly when the key was not a move key whose target is outside. -/
theorem cursor_in_range_step {W : Type} (sys : Sys W) (c : FileTypes)
    (s s1 : Browser W) (key : Char)
    (hstep : iteration sys c s key = .ok (some s1))
    (hpre : s.nFileEntryCount = 0 ∨ cursorInRange s)
    (hpos : 0 < s1.nFileEntryCount) :
    cursorInRange s1 ↔
      ∀ d, moveDelta key = some d →
        0 ≤ s.nCursorIndex + d ∧ s.nCursorIndex + d < s.nFileEntryCount := by
  unfold cursorInRange at hpre ⊢
  unfold iteration at hstep
  split at hstep
  · cases hstep
  · rename_i szRealName _
    cases hkey : moveDelta key with
    | some d =>
      rw [dispatch_move sys c s szRealName key d hkey] at hstep
      split at hstep
      · cases hstep
      · rename_i i hi
        have hi := addInt_eq_ok _ _ _ hi
        injection hstep with h; injection h with h
        subst h; subst hi
        constructor
        · intro h d1 hd1
          injection hd1 with hd1
          subst hd1
          exact h
        · intro h
          exact h d rfl
    | none =>
      have hother := dispatch_other sys c s s1 szRealName key hkey hstep
      constructor
      · intro _ d hd
        cases hd
      · intro _
        rcases hother with ⟨h0, _⟩ | ⟨hc, hn⟩
        · rw [h0]; exact ⟨le_refl 0, hpos⟩
        · rw [hc, hn]
          rw [hn] at hpos
          rcases hpre with hz | hr
          · omega
          · exact hr

theorem cursor_invariant_step {W : Type} (sys : Sys W) (c : FileTypes)
    (s s1 : Browser W) (key : Char)
    (hstep : iteration sys c s key = .ok (some s1))
    (hpre : s.nFileEntryCount = 0 ∨ cursorInRange s)
    (hmove : ∀ d, moveDelta key = some d → 0 < s.nFileEntryCount →
      0 ≤ s.nCursorIndex + d ∧ s.nCursorIndex + d < s.nFileEntryCount) :
    s1.nFileEntryCount = 0 ∨ cursorInRange s1 := by
  unfold iteration at hstep
  split at hstep
  · cases hstep
  · rename_i szRealName _
    cases hkey : moveDelta key with
    | some d =>
      rw [dispatch_move sys c s szRealName key d hkey] at hstep
      split at hstep
      · cases hstep
      · rename_i i hi
        have hi := addInt_eq_ok _ _ _ hi
        injection hstep with h; injection h with h
        subst h; subst hi
        rcases hpre with hz | hr
        · exact Or.inl hz
        · exact Or.inr (hmove d hkey (by unfold cursorInRange at hr; omega))
    | none =>
      rcases dispatch_other sys c s s1 szRealName key hkey hstep with ⟨h0, hn⟩ | ⟨hc, hn⟩
      · by_cases hz : s1.nFileEntryCount = 0
        · exact Or.inl hz
        · refine Or.inr ⟨by rw [h0], ?_⟩
          rw [h0]; omega
      · unfold cursorInRange at hpre ⊢
        rw [hc, hn]; exact hpre

theorem cursor_invariant_session {W : Type} (sys : Sys W) (c : FileTypes) :
    ∀ (keys : List Char) (s0 s : Browser W),
      (s0.nFileEntryCount = 0 ∨ cursorInRange s0) →
      session sys c s0 keys = .ok s →
      movesInRange sys c s0 keys = true →
      s.nFileEntryCount = 0 ∨ cursorInRange s := by
  intro keys
  induction keys with
  | nil =>
    intro s0 s hpre hrun _
    simp only [session] at hrun
    injection hrun with h
    rw [← h]; exact hpre
  | cons k ks ih =>
    intro s0 s hpre hrun hmoves
    simp only [session] at hrun
    simp only [movesInRange, Bool.and_eq_true] at hmoves
    obtain ⟨hk, hrest⟩ := hmoves
    split at hrun
    · cases hrun
    · injection hrun with h
      rw [← h]; exact hpre
    · rename_i s1 hstep
      simp only [hstep] at hrest
      refine ih s1 s (cursor_invariant_step sys c s0 s1 k hstep hpre ?_) hrun hrest
      intro d hd hcount
      simp only [hd, decide_eq_true_eq] at hk
      exact hk hcount

/-! ## Rebuilding twice -/

theorem GetFileType_idem {W : Type} (sys : Sys W) (c : FileTypes) (w : W)
    (szFileName : List Char) (old : Int) :
    GetFileType sys c w szFileName (GetFileType sys c w szFileName old)
      = GetFileType sys c w szFileName old := by
  unfold GetFileType
  cases sys.lstat w szFileName <;> rfl

theorem set_same (arr : List FileEntry) :
    ∀ (n : Nat) (e : FileEntry), arr.get? n = some e → arr.set n e = arr := by
  induction arr with
  | nil => intro n e h; simp at h
  | cons a arr ih =>
    intro n e h
    cases n with
    | zero => simp at h; simp [h]
    | succ n => simp at h; simp [ih n e (by simpa using h)]

theorem storeEntry_eq_ok {W : Type} (sys : Sys W) (c : FileTypes) (w : W)
    (arr arr1 : List FileEntry) (n : Nat) (d_name : List Char)
    (h : storeEntry sys c w arr n d_name = .ok arr1) :
    ∃ old, arr.get? n = some old ∧ n < arr.length ∧
      arr1 = arr.set n
        { nNumber := (n : Int)
          szName := paddedName d_name
          nFileType := GetFileType sys c w d_name old.nFileType } := by
  by_cases hn : n < arr.length
  · obtain ⟨old, hold, hstore⟩ := storeEntry_ok sys c w arr n d_name hn
    rw [hstore] at h
    injection h with h
    exact ⟨old, hold, hn, h.symm⟩
  · rw [storeEntry_overflow sys c w arr n d_name (by omega)] at h
    cases h

theorem readdirLoop_frame {W : Type} (sys : Sys W) (c : FileTypes) (w : W) :
    ∀ (names : List (List Char)) (n m : Nat) (arr arr1 : List FileEntry),
      readdirLoop sys c w names n arr = .ok (m, arr1) →
      arr1.length = arr.length ∧ ∀ j, j < n → arr1.get? j = arr.get? j := by
  intro names
  induction names with
  | nil =>
    intro n m arr arr1 h
    simp only [readdirLoop] at h
    injection h with h; injection h with _ h; subst h
    exact ⟨rfl, fun _ _ => rfl⟩
  | cons d rest ih =>
    intro n m arr arr1 h
    simp only [readdirLoop] at h
    split at h
    · cases h
    · rename_i arr2 hstore
      obtain ⟨old, _, hn, harr2⟩ := storeEntry_eq_ok sys c w arr arr2 n d hstore
      obtain ⟨hlen, hlow⟩ := ih (n + 1) m arr2 arr1 h
      subst harr2
      refine ⟨by simpa using hlen, fun j hj => ?_⟩
      rw [hlow j (by omega)]
      simp only [List.get?_eq_getElem?]
      rw [List.getElem?_set_ne (by omega)]

theorem readdirLoop_idem {W : Type} (sys : Sys W) (c : FileTypes) (w : W) :
    ∀ (names : List (List Char)) (n m : Nat) (arr arr1 : List FileEntry),
      readdirLoop sys c w names n arr = .ok (m, arr1) →
      readdirLoop sys c w names n arr1 = .ok (m, arr1) := by
  intro names
  induction names with
  | nil =>
    intro n m arr arr1 h
    simp only [readdirLoop] at h ⊢
    injection h with h; injection h with h1 h2; subst h1; subst h2; rfl
  | cons d rest ih =>
    intro n m arr arr1 h
    simp only [readdirLoop] at h
    split at h
    · cases h
    · rename_i arr2 hstore
      obtain ⟨old, _, hn, harr2⟩ := storeEntry_eq_ok sys c w arr arr2 n d hstore
      obtain ⟨hlen, hlow⟩ := readdirLoop_frame sys c w rest (n + 1) m arr2 arr1 h
      have hget : arr1.get? n = some
          { nNumber := (n : Int)
            szName := paddedName d
            nFileType := GetFileType sys c w d old.nFileType } := by
        rw [hlow n (by omega), harr2]
        simp only [List.get?_eq_getElem?]
        rw [List.getElem?_set_self hn]
      have hn1 : n < arr1.length := by
        rw [hlen, harr2]; simpa using hn
      obtain ⟨old1, hold1, hstore1⟩ := storeEntry_ok sys c w arr1 n d hn1
      rw [hget] at hold1
      injection hold1 with hold1
      subst hold1
      simp only [GetFileType_idem] at hstore1
      rw [set_same arr1 n _ hget] at hstore1
      simp only [readdirLoop, hstore1]
      exact ih (n + 1) m arr2 arr1 h

theorem GetCurrentDirectoryFiles_idem {W : Type} (sys : Sys W) (c : FileTypes) (w : W)
    (arr arr1 : List FileEntry) (n : Int)
    (h : GetCurrentDirectoryFiles sys c w arr = .ok (n, arr1)) :
    GetCurrentDirectoryFiles sys c w arr1 = .ok (n, arr1) := by
  unfold GetCurrentDirectoryFiles at h ⊢
  split at h
  · cases h
  · rename_i names hopen
    split at h
    · cases h
    · rename_i m arr2 hloop
      injection h with h; injection h with h1 h2
      subst h1; subst h2
      simp only [readdirLoop_idem sys c w names 0 m arr arr2 hloop]


/-! ## C2: the real name -/

/-- For a name of at most 19 bytes that holds no blank, the string in
`szRealName` is the name itself. -/
theorem realName_of_blank_free_witness :
    readString (realNameBuffer (paddedName "a.txt".toList)) = .ok "a.txt".toList :=
  realName_of_padded "a.txt".toList (by decide) (by decide) (by decide)

/-- C2. The file name `a b` has three characters.  Its padded display name
is cut at the blank inside the name, so the real name is `a`; in a directory
that holds `a b` and `a`, with the snapshot loaded by `n` and the cursor on
`a b` (index 0), the key `z` removes the file `a` and leaves `a b`. -/
theorem realName_cut_inside_name :
    paddedName "a b".toList = "a b".toList ++ List.replicate 16 ' ' ++ [NUL] ∧
    readString (realNameBuffer (paddedName "a b".toList)) = .ok "a".toList ∧
    (lsh_team12 ToyFs.sys sampleTypes spaceFs zeroArray ['n']).map
        (fun s => (s.nCursorIndex, (readEntry s.arrFileEntry 0).map (fun e => e.szName)))
      = .ok (0, .ok (paddedName "a b".toList)) ∧
    (lsh_team12 ToyFs.sys sampleTypes spaceFs zeroArray ['n', 'z']).map
        (fun s => s.world.nodes)
      = .ok [(["home".toList], FileMode.dir),
             (["home".toList, "a b".toList], FileMode.reg),
             (["home".toList, "new_directory".toList], FileMode.dir)] := by
  refine ⟨by decide, by decide, by decide, by decide⟩

/-! ## C3: the start of a session -/

/-- C3. In `homeFs` the listing has the regular file `a.txt` at index 0 and
the directory `sub` at index 1.  A session started there on a zeroed array
has no snapshot: after `d` and `e` the count is still 0, the cursor is 1 and
the working directory is unchanged, because `lsh_team12` does not call
`GetCurrentDirectoryFiles` before its loop.  From the state with the snapshot
loaded, the same keys do enter `sub`, rebuild and reset the cursor. -/
theorem session_starts_without_snapshot :
    ToyFs.sys.opendir homeFs = some ["a.txt".toList, "sub".toList, ToyFs.dot, ToyFs.dotdot] ∧
    ToyFs.sys.lstat homeFs "a.txt".toList = FileMode.reg ∧
    ToyFs.sys.lstat homeFs "sub".toList = FileMode.dir ∧
    lsh_team12 ToyFs.sys sampleTypes homeFs zeroArray ['d', 'e']
      = .ok { world := homeFs, nCursorIndex := 1, nFileEntryCount := 0,
              arrFileEntry := zeroArray } ∧
    GetCurrentDirectoryFiles ToyFs.sys sampleTypes homeFs zeroArray = .ok (4, homeSnapshot) ∧
    (session ToyFs.sys sampleTypes (loadedBrowser 0) ['d', 'e']).map
        (fun s => (s.world.cwd, s.nCursorIndex, s.nFileEntryCount))
      = .ok (["home".toList, "sub".toList], 0, 3) := by
  refine ⟨by decide, by decide, by decide, by decide, by decide, by decide⟩

/-! ## C4: rendering an empty snapshot -/

/-- Counterexample to C4. At the start of a session the count is 0; the
render phase prints the status bar and then reads `arrFileEntry[0]`, the
element under the cursor, to derive the real name. -/
theorem render_empty_reads_cursor_entry :
    (initialBrowser homeFs zeroArray).nFileEntryCount = 0 ∧
    (renderPhase ToyFs.sys (initialBrowser homeFs zeroArray)).1.reads = [0] ∧
    (renderPhase ToyFs.sys (initialBrowser homeFs zeroArray)).2
      = .ok (realNameBuffer zeroEntry.szName) := by
  refine ⟨by decide, by decide, by decide⟩

/-- C4, amended. When the count is 0 the render phase clears the screen,
prints the status bar and a line break, and the display loop reads no
element; the only element read before the key is the one under the cursor,
for the real name. -/
theorem render_empty {W : Type} (sys : Sys W) (s : Browser W)
    (hcount : s.nFileEntryCount = 0) :
    (renderPhase sys s).1 =
      { out := [Out.clear, Out.status (sys.getcwd s.world) 0 (sys.ctime s.world), Out.newline]
        reads := [s.nCursorIndex] } := by
  unfold renderPhase
  simp only [hcount, Int.toNat_zero, List.range_zero, fileDisplay]
  cases readEntry s.arrFileEntry s.nCursorIndex <;> rfl

/-- Witness of the amended C4 at the start of a session in `homeFs`. -/
theorem render_empty_witness :
    (renderPhase ToyFs.sys (initialBrowser homeFs zeroArray)).1 =
      { out := [Out.clear,
                Out.status (ToyFs.sys.getcwd (initialBrowser homeFs zeroArray).world) 0
                  (ToyFs.sys.ctime (initialBrowser homeFs zeroArray).world),
                Out.newline]
        reads := [(initialBrowser homeFs zeroArray).nCursorIndex] } :=
  render_empty ToyFs.sys (initialBrowser homeFs zeroArray) rfl

/-! ## C10: the move keys -/

/-- C10. A move key changes the cursor and nothing else: `d` adds 1, `a`
subtracts 1, `s` adds 4 and `w` subtracts 4, whenever the new value is an
`int`; the world, the count and the array are those of the state before. -/
theorem move_keys_change_only_cursor {W : Type} (sys : Sys W) (c : FileTypes)
    (s : Browser W) (szRealName : List Char) :
    (INT_MIN ≤ s.nCursorIndex + 1 ∧ s.nCursorIndex + 1 ≤ INT_MAX →
      dispatch sys c s szRealName 'd'
        = .ok (some { world := s.world, nCursorIndex := s.nCursorIndex + 1,
                      nFileEntryCount := s.nFileEntryCount, arrFileEntry := s.arrFileEntry })) ∧
    (INT_MIN ≤ s.nCursorIndex - 1 ∧ s.nCursorIndex - 1 ≤ INT_MAX →
      dispatch sys c s szRealName 'a'
        = .ok (some { world := s.world, nCursorIndex := s.nCursorIndex - 1,
                      nFileEntryCount := s.nFileEntryCount, arrFileEntry := s.arrFileEntry })) ∧
    (INT_MIN ≤ s.nCursorIndex + 4 ∧ s.nCursorIndex + 4 ≤ INT_MAX →
      dispatch sys c s szRealName 's'
        = .ok (some { world := s.world, nCursorIndex := s.nCursorIndex + 4,
                      nFileEntryCount := s.nFileEntryCount, arrFileEntry := s.arrFileEntry })) ∧
    (INT_MIN ≤ s.nCursorIndex - 4 ∧ s.nCursorIndex - 4 ≤ INT_MAX →
      dispatch sys c s szRealName 'w'
        = .ok (some { world := s.world, nCursorIndex := s.nCursorIndex - 4,
                      nFileEntryCount := s.nFileEntryCount, arrFileEntry := s.arrFileEntry })) := by
  refine ⟨fun h => ?_, fun h => ?_, fun h => ?_, fun h => ?_⟩
  · rw [dispatch_move sys c s szRealName 'd' 1 (by decide), addInt_ok _ _ h]
  · rw [dispatch_move sys c s szRealName 'a' (-1) (by decide), addInt_ok _ _ h]; rfl
  · rw [dispatch_move sys c s szRealName 's' 4 (by decide), addInt_ok _ _ h]
  · rw [dispatch_move sys c s szRealName 'w' (-4) (by decide), addInt_ok _ _ h]; rfl

/-- Witness of C10 in `homeFs`, with the cursor at 0. -/
theorem move_keys_change_only_cursor_witness :
    dispatch ToyFs.sys sampleTypes (loadedBrowser 0) [] 'd' = .ok (some (loadedBrowser (0 + 1))) ∧
    dispatch ToyFs.sys sampleTypes (loadedBrowser 0) [] 'a' = .ok (some (loadedBrowser (0 - 1))) ∧
    dispatch ToyFs.sys sampleTypes (loadedBrowser 0) [] 's' = .ok (some (loadedBrowser (0 + 4))) ∧
    dispatch ToyFs.sys sampleTypes (loadedBrowser 0) [] 'w' = .ok (some (loadedBrowser (0 - 4))) :=
  ⟨(move_keys_change_only_cursor ToyFs.sys sampleTypes (loadedBrowser 0) []).1 (by decide),
   (move_keys_change_only_cursor ToyFs.sys sampleTypes (loadedBrowser 0) []).2.1 (by decide),
   (move_keys_change_only_cursor ToyFs.sys sampleTypes (loadedBrowser 0) []).2.2.1 (by decide),
   (move_keys_change_only_cursor ToyFs.sys sampleTypes (loadedBrowser 0) []).2.2.2 (by decide)⟩

/-! ## C9: the keys that rebuild -/

/-- C9. After `e` on a directory entry, after `z` and after `n`, the
snapshot is the one `GetCurrentDirectoryFiles` builds in the world that the
key's system call leaves, and the cursor is 0, whatever it was before. -/
theorem rebuild_resets_cursor {W : Type} (sys : Sys W) (c : FileTypes)
    (s : Browser W) (szRealName : List Char) :
    (∀ e path n arr,
      readEntry s.arrFileEntry s.nCursorIndex = .ok e →
      e.nFileType = c.DIRECTORY →
      readString szRealName = .ok path →
      GetCurrentDirectoryFiles sys c (sys.chdir s.world path) s.arrFileEntry = .ok (n, arr) →
      dispatch sys c s szRealName 'e'
        = .ok (some { world := sys.chdir s.world path, nCursorIndex := 0,
                      nFileEntryCount := n, arrFileEntry := arr })) ∧
    (∀ e path n arr,
      readEntry s.arrFileEntry s.nCursorIndex = .ok e →
      readString szRealName = .ok path →
      GetCurrentDirectoryFiles sys c
        (if e.nFileType = c.DIRECTORY then sys.rmdir s.world path else sys.unlink s.world path)
        s.arrFileEntry = .ok (n, arr) →
      dispatch sys c s szRealName 'z'
        = .ok (some { world := if e.nFileType = c.DIRECTORY then sys.rmdir s.world path
                               else sys.unlink s.world path,
                      nCursorIndex := 0, nFileEntryCount := n, arrFileEntry := arr })) ∧
    (∀ n arr,
      GetCurrentDirectoryFiles sys c (sys.mkdir s.world newDirectoryName) s.arrFileEntry
        = .ok (n, arr) →
      dispatch sys c s szRealName 'n'
        = .ok (some { world := sys.mkdir s.world newDirectoryName, nCursorIndex := 0,
                      nFileEntryCount := n, arrFileEntry := arr })) := by
  refine ⟨?_, ?_, ?_⟩
  · intro e path n arr he hdir hpath hlist
    simp [dispatch, he, hdir, hpath, hlist]
  · intro e path n arr he hpath hlist
    simp [dispatch, he, hpath, hlist]
  · intro n arr hlist
    simp [dispatch, hlist]

/-- Witness of C9 in `homeFs` with the snapshot loaded: `e` and `z` with the
cursor on the directory `sub` (index 1), and `n`. -/
theorem rebuild_resets_cursor_witness :
    dispatch ToyFs.sys sampleTypes (loadedBrowser 1) (realNameBuffer (paddedName "sub".toList)) 'e'
      = .ok (some
          { world := ToyFs.sys.chdir (loadedBrowser 1).world "sub".toList
            nCursorIndex := 0
            nFileEntryCount := (rebuilt (ToyFs.chdir homeFs "sub".toList) homeSnapshot).1
            arrFileEntry := (rebuilt (ToyFs.chdir homeFs "sub".toList) homeSnapshot).2 }) ∧
    dispatch ToyFs.sys sampleTypes (loadedBrowser 1) (realNameBuffer (paddedName "sub".toList)) 'z'
      = .ok (some
          { world :=
              if (2 : Int) = sampleTypes.DIRECTORY
              then ToyFs.sys.rmdir (loadedBrowser 1).world "sub".toList
              else ToyFs.sys.unlink (loadedBrowser 1).world "sub".toList
            nCursorIndex := 0
            nFileEntryCount := (rebuilt homeFs homeSnapshot).1
            arrFileEntry := (rebuilt homeFs homeSnapshot).2 }) ∧
    dispatch ToyFs.sys sampleTypes (loadedBrowser 1) (realNameBuffer (paddedName "sub".toList)) 'n'
      = .ok (some
          { world := ToyFs.sys.mkdir (loadedBrowser 1).world newDirectoryName
            nCursorIndex := 0
            nFileEntryCount := (rebuilt (ToyFs.mkdir homeFs newDirectoryName) homeSnapshot).1
            arrFileEntry := (rebuilt (ToyFs.mkdir homeFs newDirectoryName) homeSnapshot).2 }) :=
  ⟨(rebuild_resets_cursor ToyFs.sys sampleTypes (loadedBrowser 1)
      (realNameBuffer (paddedName "sub".toList))).1
      { nNumber := 1, szName := paddedName "sub".toList, nFileType := 2 } "sub".toList
      (rebuilt (ToyFs.chdir homeFs "sub".toList) homeSnapshot).1
      (rebuilt (ToyFs.chdir homeFs "sub".toList) homeSnapshot).2
      (by decide) (by decide) (by decide) (by decide),
   (rebuild_resets_cursor ToyFs.sys sampleTypes (loadedBrowser 1)
      (realNameBuffer (paddedName "sub".toList))).2.1
      { nNumber := 1, szName := paddedName "sub".toList, nFileType := 2 } "sub".toList
      (rebuilt homeFs homeSnapshot).1
      (rebuilt homeFs homeSnapshot).2
      (by decide) (by decide) (by decide),
   (rebuild_resets_cursor ToyFs.sys sampleTypes (loadedBrowser 1)
      (realNameBuffer (paddedName "sub".toList))).2.2
      (rebuilt (ToyFs.mkdir homeFs newDirectoryName) homeSnapshot).1
      (rebuilt (ToyFs.mkdir homeFs newDirectoryName) homeSnapshot).2
      (by decide)⟩

/-! ## C8: delete on a directory that is not empty -/

/-- Counterexample to C8. The snapshot of `staleBrowser` was built in
`/home` before `x` appeared; the cursor is on the directory `sub`, which
holds `f`.  The key `z` leaves the file system as it is, since `rmdir`
fails, but the rebuild runs all the same: the count goes from 4 to 5 and
the cursor to 0. -/
theorem delete_nonempty_directory_still_rebuilds :
    GetCurrentDirectoryFiles ToyFs.sys sampleTypes homeFs zeroArray = .ok (4, homeSnapshot) ∧
    readEntry staleBrowser.arrFileEntry staleBrowser.nCursorIndex
      = .ok { nNumber := 1, szName := paddedName "sub".toList,
              nFileType := sampleTypes.DIRECTORY } ∧
    ToyFs.children staleBrowser.world ["home".toList, "sub".toList] = ["f".toList] ∧
    staleBrowser.nFileEntryCount = 4 ∧
    (iteration ToyFs.sys sampleTypes staleBrowser 'z').map
        (Option.map (fun s1 =>
          (decide (s1.world = staleBrowser.world), s1.nFileEntryCount, s1.nCursorIndex,
            decide (s1.arrFileEntry = staleBrowser.arrFileEntry))))
      = .ok (some (true, 5, 0, false)) := by
  refine ⟨by decide, by decide, by decide, by decide, by decide⟩

/-- C8, amended. With the cursor on a directory entry whose `rmdir` fails
and leaves the world as it is, `z` leaves the file system unchanged and
still rebuilds: the snapshot after the key is the one that
`GetCurrentDirectoryFiles` builds in the unchanged world, and the cursor is
0.  That snapshot is the one before the key whenever the one before was
itself built by `GetCurrentDirectoryFiles` in this world. -/
theorem delete_failed_rmdir {W : Type} (sys : Sys W) (c : FileTypes)
    (s : Browser W) (szRealName : List Char) (e : FileEntry) (path : List Char)
    (n : Int) (arr : List FileEntry)
    (he : readEntry s.arrFileEntry s.nCursorIndex = .ok e)
    (hdir : e.nFileType = c.DIRECTORY)
    (hpath : readString szRealName = .ok path)
    (hfail : sys.rmdir s.world path = s.world)
    (hlist : GetCurrentDirectoryFiles sys c s.world s.arrFileEntry = .ok (n, arr)) :
    dispatch sys c s szRealName 'z'
        = .ok (some { world := s.world, nCursorIndex := 0,
                      nFileEntryCount := n, arrFileEntry := arr }) ∧
      ∀ arr0, GetCurrentDirectoryFiles sys c s.world arr0
          = .ok (s.nFileEntryCount, s.arrFileEntry) →
        n = s.nFileEntryCount ∧ arr = s.arrFileEntry := by
  constructor
  · simp [dispatch, he, hdir, hpath, hfail, hlist]
  · intro arr0 hfresh
    have h := GetCurrentDirectoryFiles_idem sys c s.world arr0 s.arrFileEntry
      s.nFileEntryCount hfresh
    rw [hlist] at h
    injection h with h
    injection h with h1 h2
    exact ⟨h1, h2⟩

/-- Witness of the amended C8: `homeFs` with its snapshot loaded and the
cursor on `sub`. -/
theorem delete_failed_rmdir_witness :
    dispatch ToyFs.sys sampleTypes (loadedBrowser 1) (realNameBuffer (paddedName "sub".toList)) 'z'
        = .ok (some { world := (loadedBrowser 1).world, nCursorIndex := 0,
                      nFileEntryCount := 4, arrFileEntry := homeSnapshot }) ∧
      ∀ arr0, GetCurrentDirectoryFiles ToyFs.sys sampleTypes (loadedBrowser 1).world arr0
          = .ok ((loadedBrowser 1).nFileEntryCount, (loadedBrowser 1).arrFileEntry) →
        (4 : Int) = (loadedBrowser 1).nFileEntryCount ∧
          homeSnapshot = (loadedBrowser 1).arrFileEntry :=
  delete_failed_rmdir ToyFs.sys sampleTypes (loadedBrowser 1)
    (realNameBuffer (paddedName "sub".toList))
    { nNumber := 1, szName := paddedName "sub".toList, nFileType := 2 } "sub".toList
    4 homeSnapshot (by decide) (by decide) (by decide) (by decide) (by decide)

/-! ## C1: the cursor and the range of the snapshot -/

/-- Counterexample to C1. In `homeFs` the keys `n`, `a` lead to a state
with five entries and the cursor at -1; the next render phase reads
`arrFileEntry[-1]`. -/
theorem cursor_leaves_range :
    (lsh_team12 ToyFs.sys sampleTypes homeFs zeroArray ['n', 'a']).map
        (fun s => (s.nFileEntryCount, s.nCursorIndex,
          (renderPhase ToyFs.sys s).1.reads, (renderPhase ToyFs.sys s).2))
      = .ok (5, -1, [0, 1, 2, 3, 4, -1], .error .outOfBounds) := by
  decide

/-- C1, amended. Take a state reached from the start of a session by keys
among which no move key was pressed, while the snapshot had entries, with
its target outside `[0, count)`.  If the state has entries, its cursor, which
the next render phase uses, lies in `[0, count)`.  The proviso is needed:
the move keys neither clamp nor wrap. -/
theorem cursor_in_range_session {W : Type} (sys : Sys W) (c : FileTypes) (w : W)
    (garbage : List FileEntry) (keys : List Char) (s : Browser W)
    (hrun : lsh_team12 sys c w garbage keys = .ok s)
    (hmoves : movesInRange sys c (initialBrowser w garbage) keys = true)
    (hpos : 0 < s.nFileEntryCount) :
    0 ≤ s.nCursorIndex ∧ s.nCursorIndex < s.nFileEntryCount := by
  unfold lsh_team12 at hrun
  rcases cursor_invariant_session sys c keys (initialBrowser w garbage) s (Or.inl rfl)
    hrun hmoves with h | h
  · omega
  · exact h

/-- Witness of the amended C1: the keys `n`, `d`, `d` in `homeFs`, which end
with five entries and the cursor at 2. -/
theorem cursor_in_range_session_witness :
    (lsh_team12 ToyFs.sys sampleTypes homeFs zeroArray ['n', 'd', 'd']).map
        (fun s => (s.nCursorIndex, s.nFileEntryCount)) = .ok (2, 5) ∧
    movesInRange ToyFs.sys sampleTypes (initialBrowser homeFs zeroArray) ['n', 'd', 'd'] = true ∧
    (0 ≤ (2 : Int) ∧ (2 : Int) < (rebuilt (ToyFs.mkdir homeFs newDirectoryName) zeroArray).1) :=
  ⟨by decide, by decide,
   cursor_in_range_session ToyFs.sys sampleTypes homeFs zeroArray ['n', 'd', 'd']
    { world := ToyFs.mkdir homeFs newDirectoryName
      nCursorIndex := 2
      nFileEntryCount := (rebuilt (ToyFs.mkdir homeFs newDirectoryName) zeroArray).1
      arrFileEntry := (rebuilt (ToyFs.mkdir homeFs newDirectoryName) zeroArray).2 }
    (by decide) (by decide) (by decide)⟩

end Lsh
